import Mathlib

/-!
Verification of the master-dispatcher logic of the pokebot repository
(src/bot/master.rs): the resource pools of display names and identities,
the worker-creation protocol `MasterBot::build_bot_args_for` /
`MasterBot::spawn_bot_for`, the release callback, coordinated shutdown
`MasterBot::quit`, the status queries, and `MasterArgs::merge`.

The Rust code is shallowly embedded: client ids and channel ids are `Nat`,
identities are abstract strings, the `HashMap<String, Arc<MusicBot>>` is an
association list with unique keys (insert and remove are modelled by
cons-after-filter and filter, which agree with the hash map on unique-keyed
lists), `Vec::pop` is take-last, `Vec::push` is append-at-end, and the
`rand` crate's shuffle is modelled by an arbitrary executable permutation
(a rotation selected by the rng state): only the fact that shuffling
permutes the list is observable in the properties below.

Rust panics (`expect`, out-of-bounds indexing) are modelled as an explicit
`panicked` outcome, distinct from the `BotCreationError` results.
-/

namespace Pokebot

/-- Client id (`tsclientlib::ClientId`). -/
abbrev ClientId := Nat

/-- Channel id (`tsclientlib::ChannelId`). -/
abbrev ChannelId := Nat

/-- Cryptographic identity (`tsclientlib::Identity`), kept abstract. -/
abbrev Identity := String

/-- The slice of `MasterConfig` (master.rs lines 371-378) the dispatcher reads. -/
structure MasterConfig where
  master_name : String
  address : String
  names : List String
  ids : List Identity
  local_flag : Bool
  verbose : Nat
deriving DecidableEq, Repr

/-- Worker handle. `MusicBot` itself lives outside the given sources; this
models the data observable through the master: its name, the pooled indices
the worker was created with and later passes back to the disconnect
callback, the channel it occupies (`MusicBot::my_channel`), and the
ephemeral playback data read by the status queries. Modelled from the spec:
the worker stores the name, name index and identity index it was spawned
with and reports them unchanged. -/
structure MusicBot where
  name : String
  name_index : Nat
  id_index : Nat
  channel : ChannelId
  play_state : Nat
  volume : Nat
  position : Nat
  currently_playing : Option String
  playlist : List String
deriving DecidableEq, Repr

/-- The pool state guarded by the `RwLock` (`MusicBots`, master.rs lines 25-30). -/
structure MusicBots where
  rng : Nat
  available_names : List Nat
  available_ids : List Nat
  connected_bots : List (String × MusicBot)
deriving DecidableEq, Repr

/-- `BotCreationError` (master.rs lines 286-292). -/
inductive BotCreationError where
  | UnfoundUser : BotCreationError
  | MasterChannel : String → BotCreationError
  | MultipleBots : String → BotCreationError
  | OutOfNames : BotCreationError
  | OutOfIdentities : BotCreationError
deriving DecidableEq, Repr

/-- The `Display` implementation for `BotCreationError` (master.rs lines
294-314); the backslash line continuations of the Rust string literals
collapse to a single space. -/
def BotCreationError.render : BotCreationError → String
  | .UnfoundUser =>
      "I can\x27t find you in the channel list, either I am not subscribed to your channel or this is a bug."
  | .MasterChannel name =>
      "Joining the channel of \"" ++ name ++ "\" is not allowed"
  | .MultipleBots name =>
      "\"" ++ name ++ "\" is already in this channel. Multiple bots in one channel are not allowed."
  | .OutOfNames => "Out of names. Too many bots are already connected!"
  | .OutOfIdentities => "Out of identities. Too many bots are already connected!"

/-- `MusicBotArgs` (constructed at master.rs lines 165-175); the disconnect
callback is modelled separately by `releaseBot`. -/
structure MusicBotArgs where
  name : String
  name_index : Nat
  id_index : Nat
  local_flag : Bool
  address : String
  id : Identity
  channel : String
  verbose : Nat
deriving DecidableEq, Repr

/-- The dispatcher's view of the transport (`TeamSpeakConnection`), an
external collaborator: channel lookup, the master's own channel, and
channel-path lookup. Each is a pure query of one environment snapshot. -/
structure TeamSpeakView where
  channel_of_user : ClientId → Option ChannelId
  my_channel : ChannelId
  channel_path_of_user : ClientId → Option String

/-- One step of the rng. The `rand` crate is an external dependency; only
the permutation structure of a shuffle is observable, so the generator is
modelled by an arbitrary executable step function. -/
def rngNext (r : Nat) : Nat := (r * 1103515245 + 12345) % 2147483648

/-- `SliceRandom::shuffle` from the external `rand` crate, modelled as an
executable permutation chosen by the rng state (a rotation) together with
the advanced rng. Every property proved below uses only the fact that the
result is a permutation of the input (`shuffle_perm`). -/
def shuffle (l : List Nat) (r : Nat) : List Nat × Nat :=
  (l.rotate (r % (l.length + 1)), rngNext r)

/-- Result of `build_bot_args_for`: the `Result` of the Rust function, plus
an explicit outcome for the panics reachable in its body (the
`.expect("can find poke sender")` at line 134 and slice indexing). -/
inductive BuildResult where
  | ok : MusicBotArgs → BuildResult
  | err : BotCreationError → BuildResult
  | panicked : String → BuildResult
deriving DecidableEq, Repr

/-- Linear scan of `connected_bots` for a worker occupying `c` (the loop at
master.rs lines 125-129). -/
def findBotInChannel (bots : List (String × MusicBot)) (c : ChannelId) : Option MusicBot :=
  (bots.find? (fun p => p.2.channel == c)).map (fun p => p.2)

/-- `MasterBot::build_bot_args_for` (master.rs lines 105-176), with the
mutation of the locked `MusicBots` state made explicit in the return value:
1. resolve the inviting user's channel (`UnfoundUser` on failure);
2. reject the master's own channel (`MasterChannel`);
3. reject a channel already hosting a worker (`MultipleBots`);
4. resolve the channel path (the Rust code panics on failure);
5. shuffle-and-pop a name index (`OutOfNames` on empty), look the name up;
6. shuffle-and-pop an identity index (`OutOfIdentities` on empty) — note
   the name index popped in step 5 is not restored on this failure;
7. return the assembled `MusicBotArgs`. -/
def buildBotArgsFor (ts : TeamSpeakView) (cfg : MasterConfig) (s : MusicBots)
    (id : ClientId) : BuildResult × MusicBots :=
  match ts.channel_of_user id with
  | none => (.err .UnfoundUser, s)
  | some channel =>
    if channel = ts.my_channel then
      (.err (.MasterChannel cfg.master_name), s)
    else
      match findBotInChannel s.connected_bots channel with
      | some bot => (.err (.MultipleBots bot.name), s)
      | none =>
        match ts.channel_path_of_user id with
        | none => (.panicked "can find poke sender", s)
        | some channel_path =>
          match (shuffle s.available_names s.rng).1.getLast? with
          | none =>
              (.err .OutOfNames,
               { s with rng := (shuffle s.available_names s.rng).2,
                        available_names := (shuffle s.available_names s.rng).1 })
          | some name_index =>
            match cfg.names[name_index]? with
            | none =>
                (.panicked "index out of bounds",
                 { s with rng := (shuffle s.available_names s.rng).2,
                          available_names := (shuffle s.available_names s.rng).1.dropLast })
            | some name =>
              match (shuffle s.available_ids (shuffle s.available_names s.rng).2).1.getLast? with
              | none =>
                  (.err .OutOfIdentities,
                   { s with rng := (shuffle s.available_ids (shuffle s.available_names s.rng).2).2,
                            available_names := (shuffle s.available_names s.rng).1.dropLast,
                            available_ids := (shuffle s.available_ids (shuffle s.available_names s.rng).2).1 })
              | some id_index =>
                match cfg.ids[id_index]? with
                | none =>
                    (.panicked "index out of bounds",
                     { s with rng := (shuffle s.available_ids (shuffle s.available_names s.rng).2).2,
                              available_names := (shuffle s.available_names s.rng).1.dropLast,
                              available_ids := (shuffle s.available_ids (shuffle s.available_names s.rng).2).1.dropLast })
                | some ident =>
                  (.ok { name := name, name_index := name_index, id_index := id_index,
                         local_flag := cfg.local_flag, address := cfg.address,
                         id := ident, channel := channel_path, verbose := cfg.verbose },
                   { s with rng := (shuffle s.available_ids (shuffle s.available_names s.rng).2).2,
                            available_names := (shuffle s.available_names s.rng).1.dropLast,
                            available_ids := (shuffle s.available_ids (shuffle s.available_names s.rng).2).1.dropLast })

/-- `HashMap::get` on the association-list model. -/
def mapGet (m : List (String × MusicBot)) (k : String) : Option MusicBot :=
  (m.find? (fun p => p.1 == k)).map (fun p => p.2)

/-- `HashMap::insert` on the association-list model: the new binding
replaces any previous binding of the key. -/
def mapInsert (m : List (String × MusicBot)) (k : String) (v : MusicBot) :
    List (String × MusicBot) :=
  (k, v) :: m.filter (fun p => p.1 != k)

/-- `HashMap::remove` on the association-list model. -/
def mapRemove (m : List (String × MusicBot)) (k : String) : List (String × MusicBot) :=
  m.filter (fun p => p.1 != k)

/-- `MusicBot::new` (outside the given sources). Modelled from the spec:
the spawned worker keeps the name, name index and identity index of its
`MusicBotArgs` and joins the target channel, which it reports through
`my_channel`; its playback data starts in some fixed state. -/
def mkMusicBot (args : MusicBotArgs) (channel : ChannelId) : MusicBot :=
  { name := args.name, name_index := args.name_index, id_index := args.id_index,
    channel := channel, play_state := 0, volume := 0, position := 0,
    currently_playing := none, playlist := [] }

/-- The externally visible effect of `spawn_bot_for`: a worker was spawned
and registered, or the rendered denial was sent to the inviting user as a
direct message, or the dispatcher panicked. -/
inductive SpawnEffect where
  | spawned : String → SpawnEffect
  | messaged : ClientId → String → SpawnEffect
  | panicked : String → SpawnEffect
deriving DecidableEq, Repr

/-- `MasterBot::spawn_bot_for` (master.rs lines 178-193): on success the
spawned handle is registered under its name (lines 183-186); on a
`BotCreationError` the rendered message is sent to the inviting user
(lines 189-191). The worker's live channel is the channel the user was
resolved to. -/
def spawnBotFor (ts : TeamSpeakView) (cfg : MasterConfig) (s : MusicBots)
    (id : ClientId) : MusicBots × SpawnEffect :=
  match buildBotArgsFor ts cfg s id with
  | (.ok args, s1) =>
      let bot := mkMusicBot args ((ts.channel_of_user id).getD 0)
      ({ s1 with connected_bots := mapInsert s1.connected_bots bot.name bot },
       .spawned args.name)
  | (.err e, s1) => (s1, .messaged id e.render)
  | (.panicked m, s1) => (s1, .panicked m)

/-- The disconnect callback (master.rs lines 156-161): remove the worker's
entry from `connected_bots` and push its name and identity indices back
onto the available lists. -/
def releaseBot (s : MusicBots) (n : String) (name_index id_index : Nat) : MusicBots :=
  { s with connected_bots := mapRemove s.connected_bots n,
           available_names := s.available_names ++ [name_index],
           available_ids := s.available_ids ++ [id_index] }

/-- The initial pool built in `MasterBot::new` (master.rs lines 66-71):
every name index and every identity index available, no connected bots.
The rng is seeded from entropy, hence an arbitrary seed parameter. -/
def initState (cfg : MasterConfig) (seed : Nat) : MusicBots :=
  { rng := seed, available_names := List.range cfg.names.length,
    available_ids := List.range cfg.ids.length, connected_bots := [] }

/-- The pool states reachable from the initial pool by worker-creation
attempts (successful or failed) and by disconnect callbacks. A callback
fires at most once per live worker, with the name and indices bound at that
worker's creation (spec section 4.5), hence the release step requires the
entry to still be registered and uses its stored indices. -/
inductive Reachable (cfg : MasterConfig) : MusicBots → Prop where
  | init (seed : Nat) : Reachable cfg (initState cfg seed)
  | spawn {s : MusicBots} (ts : TeamSpeakView) (u : ClientId) :
      Reachable cfg s → Reachable cfg (spawnBotFor ts cfg s u).1
  | release {s : MusicBots} (p : String × MusicBot) :
      Reachable cfg s → p ∈ s.connected_bots →
      Reachable cfg (releaseBot s p.1 p.2.name_index p.2.id_index)

/-- The conservation invariant of spec section 3: the available name
indices together with the name indices held by registered workers are
exactly the configured name index range, with no duplication or loss
(stated as multiset equality), and likewise for identity indices. -/
def PoolInvariant (cfg : MasterConfig) (s : MusicBots) : Prop :=
  (s.available_names ++ s.connected_bots.map (fun p => p.2.name_index)).Perm
      (List.range cfg.names.length) ∧
  (s.available_ids ++ s.connected_bots.map (fun p => p.2.id_index)).Perm
      (List.range cfg.ids.length)

instance (cfg : MasterConfig) (s : MusicBots) : Decidable (PoolInvariant cfg s) :=
  inferInstanceAs (Decidable (_ ∧ _))

/-- Shutdown events in program order: `MasterBot::quit` (master.rs lines
275-283) sends a quit instruction to every connected bot, then enqueues
`Quit` for the master's own message loop, which disconnects the master
transport when it dequeues it (lines 85-89). The channel is FIFO, so the
master disconnect is ordered after every worker instruction. -/
inductive QuitEvent where
  | workerQuit : String → String → QuitEvent
  | masterDisconnect : String → QuitEvent
deriving DecidableEq, Repr

/-- The sequence of externally visible shutdown actions of `quit(reason)`
followed by the message loop handling the enqueued `Quit`. -/
def quitTrace (s : MusicBots) (reason : String) : List QuitEvent :=
  s.connected_bots.map (fun p => QuitEvent.workerQuit p.1 reason) ++
    [QuitEvent.masterDisconnect reason]

/-- The process arguments consumed by `MasterArgs::merge` (master.rs lines
346-354); the `Args` struct itself lives outside the given sources, its
field types are those the merge code requires. -/
structure Args where
  address : Option String
  local_flag : Bool
  master_channel : Option String
  verbose : Nat
deriving DecidableEq, Repr

/-- `MasterArgs` (master.rs lines 316-331). -/
structure MasterArgs where
  master_name : String
  local_flag : Bool
  address : String
  channel : Option String
  verbose : Nat
  domain : String
  bind_address : String
  names : List String
  id : Option Identity
  ids : Option (List Identity)
deriving DecidableEq, Repr

/-- `MasterArgs::merge` (master.rs lines 345-369). -/
def MasterArgs.merge (self : MasterArgs) (args : Args) : MasterArgs :=
  { master_name := self.master_name
    names := self.names
    ids := self.ids
    local_flag := args.local_flag || self.local_flag
    address := args.address.getD self.address
    domain := self.domain
    bind_address := self.bind_address
    id := self.id
    channel := args.master_channel.or self.channel
    verbose := if args.verbose > 0 then args.verbose else self.verbose }

/-- `crate::web_server::BotData` as assembled by the status queries. -/
structure BotData where
  name : String
  play_state : Nat
  volume : Nat
  position : Nat
  currently_playing : Option String
  playlist : List String
deriving DecidableEq, Repr

/-- `MasterBot::bot_data` (master.rs lines 228-240): look the name up in
`connected_bots` and build the snapshot, reusing the queried name. -/
def botData (s : MusicBots) (name : String) : Option BotData :=
  (mapGet s.connected_bots name).map (fun bot =>
    { name := name, play_state := bot.play_state, volume := bot.volume,
      position := bot.position, currently_playing := bot.currently_playing,
      playlist := bot.playlist })

/-- Atomic steps of one pass through `spawn_bot_for`, for the locking
discipline: `lockAcquire`/`lockRelease` are the write-lock acquisitions
and guard drops, `awaitStep` is an await outside any lock. -/
inductive LockStep where
  | lockAcquire : LockStep
  | lockRelease : LockStep
  | channelCheck : LockStep
  | pathResolve : LockStep
  | allocName : LockStep
  | allocId : LockStep
  | registerBot : LockStep
  | awaitStep : LockStep
deriving DecidableEq, Repr

/-- The lock/step trace of one successful worker creation, read off
master.rs: the write lock is taken at line 123; the uniqueness check
(125-129), path resolution (131-134) and both allocations (136-151) run
under it; the guard drops when `build_bot_args_for` returns (176);
`MusicBot::new` is awaited without the lock (181); the lock is re-acquired
at line 183 for the registration (184-186) and dropped again. -/
def spawnLockTrace : List LockStep :=
  [.lockAcquire, .channelCheck, .pathResolve, .allocName, .allocId,
   .lockRelease, .awaitStep, .lockAcquire, .registerBot, .lockRelease]

/-- The pool lock is held while step `k` of a trace runs: strictly more
acquisitions than releases among the preceding steps. -/
def lockHeld (tr : List LockStep) (k : Nat) : Bool :=
  (tr.take k).count .lockRelease < (tr.take k).count .lockAcquire

/-- The locking discipline claimed by spec section 5 for `spawnLockTrace`:
the lock is held continuously from the channel-uniqueness check (position
1) through the registration (position 8). -/
def ContinuousLockClaim : Prop :=
  ∀ k, 1 ≤ k → k ≤ 8 → lockHeld spawnLockTrace k = true

/-! Concrete configurations, transport snapshots and pool states used to
evaluate the definitions on explicit inputs. -/

/-- A configuration with one candidate name and no identities. -/
def cfgA : MasterConfig :=
  { master_name := "Master", address := "ts.example.org", names := ["alpha"],
    ids := [], local_flag := false, verbose := 0 }

/-- A configuration with one candidate name and one identity. -/
def cfgC : MasterConfig :=
  { master_name := "Master", address := "ts.example.org", names := ["alpha"],
    ids := ["identA"], local_flag := false, verbose := 0 }

/-- Transport snapshot: user 5 sits in channel 1, the master in channel 0,
channel paths resolve. -/
def tsA : TeamSpeakView :=
  { channel_of_user := fun u => if u = 5 then some 1 else none,
    my_channel := 0,
    channel_path_of_user := fun _ => some "Root/Target" }

/-- Transport snapshot where channel-path resolution fails while channel
resolution succeeds (the user moved between the two lookups). -/
def tsC : TeamSpeakView :=
  { channel_of_user := fun _ => some 1,
    my_channel := 0,
    channel_path_of_user := fun _ => none }

/-- Transport snapshot: every user resolves to channel 2. -/
def tsB : TeamSpeakView :=
  { channel_of_user := fun _ => some 2,
    my_channel := 0,
    channel_path_of_user := fun _ => some "Root/Target" }

/-- Transport snapshot: every user resolves to the master's own channel. -/
def tsE : TeamSpeakView :=
  { channel_of_user := fun _ => some 0,
    my_channel := 0,
    channel_path_of_user := fun _ => none }

/-- A worker occupying channel 2 under the name "beta". -/
def botB : MusicBot :=
  { name := "beta", name_index := 0, id_index := 0, channel := 2,
    play_state := 0, volume := 0, position := 0, currently_playing := none,
    playlist := [] }

/-- Pool state whose only registered worker is `botB`. -/
def sB : MusicBots :=
  { rng := 0, available_names := [], available_ids := [],
    connected_bots := [("beta", botB)] }

/-- A pool state with both pools empty and no workers. -/
def sE : MusicBots :=
  { rng := 0, available_names := [], available_ids := [], connected_bots := [] }

/-- A pool state with three registered workers. -/
def s7 : MusicBots :=
  { rng := 0, available_names := [], available_ids := [],
    connected_bots :=
      [("a", { botB with name := "a", channel := 3 }),
       ("b", { botB with name := "b", name_index := 1, id_index := 1, channel := 4 }),
       ("c", { botB with name := "c", name_index := 2, id_index := 2, channel := 5 })] }

/-- The `MusicBotArgs` produced by `buildBotArgsFor tsA cfgC (initState cfgC 0) 5`. -/
def argsW : MusicBotArgs :=
  { name := "alpha", name_index := 0, id_index := 0, local_flag := false,
    address := "ts.example.org", id := "identA", channel := "Root/Target",
    verbose := 0 }

/-- The pool state after `buildBotArgsFor tsA cfgC (initState cfgC 0) 5`. -/
def s1W : MusicBots :=
  { rng := rngNext (rngNext 0), available_names := [], available_ids := [],
    connected_bots := [] }

/-- The snapshot `botData sB "beta"` returns. -/
def dB : BotData :=
  { name := "beta", play_state := 0, volume := 0, position := 0,
    currently_playing := none, playlist := [] }

/-- Configured defaults for the merge example. -/
def selfM : MasterArgs :=
  { master_name := "PokeBot", local_flag := false, address := "cfg.example.org",
    channel := some "CfgChannel", verbose := 1, domain := "example.org",
    bind_address := "0.0.0.0:8080", names := ["alpha"], id := none, ids := none }

/-- Explicit process arguments for the merge example. -/
def argsM : Args :=
  { address := some "arg.example.org", local_flag := true,
    master_channel := some "ArgChannel", verbose := 3 }

/-! Helper lemmas. -/

theorem shuffle_perm (l : List Nat) (r : Nat) : (shuffle l r).1.Perm l :=
  List.rotate_perm l (r % (l.length + 1))

theorem dropLast_concat_getLast?_eq {l : List Nat} {a : Nat}
    (h : l.getLast? = some a) : l.dropLast ++ [a] = l := by
  induction l with
  | nil => simp at h
  | cons x xs ih =>
    cases xs with
    | nil => simp_all
    | cons y ys =>
      rw [List.getLast?_cons_cons] at h
      simpa using ih h

theorem mapGet_mapRemove_self (m : List (String × MusicBot)) (k : String) :
    mapGet (mapRemove m k) k = none := by
  unfold mapGet mapRemove
  rw [Option.map_eq_none', List.find?_eq_none]
  intro p hp
  have := (List.mem_filter.mp hp).2
  simpa [bne_iff_ne] using this

theorem mapRemove_of_not_mem {m : List (String × MusicBot)} {k : String}
    (h : ∀ p ∈ m, p.1 ≠ k) : mapRemove m k = m := by
  unfold mapRemove
  exact List.filter_eq_self.mpr fun p hp => by simpa [bne_iff_ne] using h p hp

theorem mapRemove_mapInsert_self (m : List (String × MusicBot)) (k : String)
    (v : MusicBot) : mapRemove (mapInsert m k v) k = mapRemove m k := by
  unfold mapRemove mapInsert
  rw [List.filter_cons]
  simp

theorem buildBotArgsFor_connected (ts : TeamSpeakView) (cfg : MasterConfig)
    (s : MusicBots) (id : ClientId) :
    (buildBotArgsFor ts cfg s id).2.connected_bots = s.connected_bots := by
  unfold buildBotArgsFor
  repeat' split
  all_goals rfl

theorem buildBotArgsFor_ok_spec {ts : TeamSpeakView} {cfg : MasterConfig}
    {s : MusicBots} {id : ClientId} {args : MusicBotArgs} {s1 : MusicBots}
    (h : buildBotArgsFor ts cfg s id = (.ok args, s1)) :
    (shuffle s.available_names s.rng).1.getLast? = some args.name_index ∧
    s1.available_names = (shuffle s.available_names s.rng).1.dropLast ∧
    (shuffle s.available_ids (shuffle s.available_names s.rng).2).1.getLast? =
      some args.id_index ∧
    s1.available_ids =
      (shuffle s.available_ids (shuffle s.available_names s.rng).2).1.dropLast ∧
    s1.connected_bots = s.connected_bots := by
  unfold buildBotArgsFor at h
  repeat' split at h
  all_goals simp only [Prod.mk.injEq] at h
  any_goals exact BuildResult.noConfusion h.1
  obtain ⟨h1, rfl⟩ := h
  injection h1 with h1
  subst h1
  simp_all

/-! Claim theorems. -/

/-- C1: the claim states that a worker-creation attempt failing with
`OutOfIdentities` from a state with an empty identity pool and a non-empty
name pool leaves the available name indices unchanged. The code pops the
name index before examining the identity pool and never restores it: from
the state with `available_names = [0]` and `available_ids = []`, the
attempt fails with `OutOfIdentities` yet afterwards `available_names` is
empty — the name index is consumed (leaked) by the failed attempt. -/
theorem c1_out_of_identities_consumes_name :
    (initState cfgA 0).available_names = [0] ∧
    (initState cfgA 0).available_ids = [] ∧
    (buildBotArgsFor tsA cfgA (initState cfgA 0) 5).1 =
      BuildResult.err BotCreationError.OutOfIdentities ∧
    (buildBotArgsFor tsA cfgA (initState cfgA 0) 5).2.available_names = [] :=
  ⟨rfl, rfl, rfl, rfl⟩

/-- C2: the claim states the conservation invariant — available indices
and in-use indices form a disjoint union equal to the configured index
range — at every point of every allocate/release sequence from the initial
pool. One failed creation attempt from the initial pool of `cfgA` (one
name, zero identities) reaches a state in which name index 0 is neither
available nor held by any registered worker, so the invariant is violated
at a reachable state. -/
theorem c2_invariant_violated_at_reachable_state :
    Reachable cfgA (spawnBotFor tsA cfgA (initState cfgA 0) 5).1 ∧
    ¬ PoolInvariant cfgA (spawnBotFor tsA cfgA (initState cfgA 0) 5).1 :=
  ⟨Reachable.spawn tsA 5 (Reachable.init 0), by decide⟩

/-- C3 (counterexample): the claim states that no failure mode of the
creation protocol, including channel-path resolution in step 4, causes a
panic at the dispatcher level. When the channel of the inviting user
resolves but the channel path does not, `spawn_bot_for` panics (the
`.expect("can find poke sender")` at master.rs line 134) instead of
sending a denial message. -/
theorem c3_path_resolution_panics :
    (spawnBotFor tsC cfgA (initState cfgA 0) 5).2 =
      SpawnEffect.panicked "can find poke sender" := rfl

/-- C3 (amended): for every invitation that fails with a
`BotCreationError` (steps 1, 2, 3 and 5 of the protocol), no worker is
spawned — `connected_bots` is unchanged — and the dispatcher sends the
rendered denial reason as a direct message to the inviting user; a
channel-path-resolution failure in step 4, however, panics the dispatcher. -/
theorem c3_error_sends_denial_no_spawn (ts : TeamSpeakView) (cfg : MasterConfig)
    (s : MusicBots) (u : ClientId) (e : BotCreationError) (s1 : MusicBots)
    (h : buildBotArgsFor ts cfg s u = (.err e, s1)) :
    spawnBotFor ts cfg s u = (s1, .messaged u e.render) ∧
    s1.connected_bots = s.connected_bots := by
  constructor
  · unfold spawnBotFor
    rw [h]
  · have hc := buildBotArgsFor_connected ts cfg s u
    rw [h] at hc
    exact hc

/-- C3 (witness): an invitation from an unlocatable user is denied with
the rendered `UnfoundUser` message and spawns no worker. -/
theorem c3_error_sends_denial_no_spawn_witness :
    spawnBotFor tsA cfgA (initState cfgA 0) 6 =
      (initState cfgA 0,
       SpawnEffect.messaged 6 (BotCreationError.render .UnfoundUser)) :=
  (c3_error_sends_denial_no_spawn tsA cfgA (initState cfgA 0) 6 .UnfoundUser
    (initState cfgA 0) rfl).1

/-- C4: an invitation resolving to a channel that already hosts an active
worker fails with `MultipleBots` carrying that worker's name, and the
whole pool state — available names, available identities, registered
workers — is returned unchanged. -/
theorem c4_multiple_bots_rejection (ts : TeamSpeakView) (cfg : MasterConfig)
    (s : MusicBots) (u : ClientId) (c : ChannelId)
    (h1 : ts.channel_of_user u = some c) (h2 : c ≠ ts.my_channel)
    (h3 : ∃ p ∈ s.connected_bots, p.2.channel = c) :
    ∃ q, (∃ p ∈ s.connected_bots, p.2 = q) ∧ q.channel = c ∧
      buildBotArgsFor ts cfg s u = (.err (.MultipleBots q.name), s) := by
  have hfind : (s.connected_bots.find? (fun p => p.2.channel == c)).isSome := by
    rw [List.find?_isSome]
    obtain ⟨p, hp, hc⟩ := h3
    exact ⟨p, hp, by simpa using hc⟩
  obtain ⟨p, hp⟩ := Option.isSome_iff_exists.mp hfind
  refine ⟨p.2, ⟨p, List.mem_of_find?_eq_some hp, rfl⟩, ?_, ?_⟩
  · have hpred := List.find?_some hp
    simpa using hpred
  · unfold buildBotArgsFor
    rw [h1]
    dsimp only
    rw [if_neg h2]
    unfold findBotInChannel
    rw [hp]
    rfl

/-- C4 (witness): with worker "beta" registered in channel 2, an
invitation from a user in channel 2 is rejected with
`MultipleBots "beta"` and the pool state is unchanged. -/
theorem c4_multiple_bots_rejection_witness :
    buildBotArgsFor tsB cfgA sB 5 = (.err (.MultipleBots "beta"), sB) := by
  obtain ⟨q, hq, hc, he⟩ :=
    c4_multiple_bots_rejection tsB cfgA sB 5 2 rfl (by decide)
      ⟨("beta", botB), by simp [sB], rfl⟩
  obtain ⟨p, hp, rfl⟩ := hq
  have hpb : p = ("beta", botB) := by simpa [sB] using hp
  subst hpb
  exact he

/-- C5: an invitation from a user whose resolved channel is the master's
own channel fails with `MasterChannel` carrying the master's configured
name, for every configuration and every pool state, and the pool state is
returned unchanged (no resource consumed). -/
theorem c5_master_channel_rejection (ts : TeamSpeakView) (cfg : MasterConfig)
    (s : MusicBots) (u : ClientId)
    (h : ts.channel_of_user u = some ts.my_channel) :
    buildBotArgsFor ts cfg s u = (.err (.MasterChannel cfg.master_name), s) := by
  unfold buildBotArgsFor
  rw [h]
  simp

/-- C5 (witness): the rejection fires in particular from a state with both
pools empty (the check precedes any pool access). -/
theorem c5_master_channel_rejection_witness :
    buildBotArgsFor tsE cfgA sE 5 =
      (.err (.MasterChannel cfgA.master_name), sE) :=
  c5_master_channel_rejection tsE cfgA sE 5 rfl

/-- C6: after the release callback fires with a worker's bound name, name
index and identity index, the name index is available again, the identity
index is available again, and no worker is registered under that name; and
for a worker allocated by a successful creation from a state not already
using its name, spawn followed by release returns the pool to its
pre-allocation state (the available index collections up to order, the
worker registry exactly). -/
theorem c6_release_returns_resources :
    (∀ (s : MusicBots) (n : String) (ni ii : Nat),
      ni ∈ (releaseBot s n ni ii).available_names ∧
      ii ∈ (releaseBot s n ni ii).available_ids ∧
      mapGet (releaseBot s n ni ii).connected_bots n = none) ∧
    (∀ (ts : TeamSpeakView) (cfg : MasterConfig) (s : MusicBots) (u : ClientId)
      (args : MusicBotArgs) (s1 : MusicBots),
      buildBotArgsFor ts cfg s u = (.ok args, s1) →
      (∀ p ∈ s.connected_bots, p.1 ≠ args.name) →
      ((releaseBot (spawnBotFor ts cfg s u).1 args.name args.name_index
          args.id_index).available_names.Perm s.available_names ∧
       (releaseBot (spawnBotFor ts cfg s u).1 args.name args.name_index
          args.id_index).available_ids.Perm s.available_ids ∧
       (releaseBot (spawnBotFor ts cfg s u).1 args.name args.name_index
          args.id_index).connected_bots = s.connected_bots)) := by
  constructor
  · intro s n ni ii
    refine ⟨?_, ?_, mapGet_mapRemove_self _ _⟩
    · exact List.mem_append_right _ (List.mem_singleton_self ni)
    · exact List.mem_append_right _ (List.mem_singleton_self ii)
  · intro ts cfg s u args s1 h hfresh
    obtain ⟨hn, hnames, hi, hids, hbots⟩ := buildBotArgsFor_ok_spec h
    have h2 : (spawnBotFor ts cfg s u).1 =
        { s1 with
          connected_bots :=
            mapInsert s1.connected_bots args.name
              (mkMusicBot args ((ts.channel_of_user u).getD 0)) } := by
      unfold spawnBotFor
      rw [h]
      rfl
    rw [h2]
    unfold releaseBot
    dsimp only
    refine ⟨?_, ?_, ?_⟩
    · rw [hnames, dropLast_concat_getLast?_eq hn]
      exact shuffle_perm _ _
    · rw [hids, dropLast_concat_getLast?_eq hi]
      exact shuffle_perm _ _
    · rw [mapRemove_mapInsert_self, hbots, mapRemove_of_not_mem hfresh]

/-- C6 (witness): releasing ("beta", 0, 1) into the empty pool makes both
indices available with no worker under the name; and the concrete
allocate-spawn-release round trip from `initState cfgC 0` restores the
initial pool. -/
theorem c6_release_returns_resources_witness :
    (0 ∈ (releaseBot sE "beta" 0 1).available_names ∧
     1 ∈ (releaseBot sE "beta" 0 1).available_ids ∧
     mapGet (releaseBot sE "beta" 0 1).connected_bots "beta" = none) ∧
    ((releaseBot (spawnBotFor tsA cfgC (initState cfgC 0) 5).1 argsW.name
        argsW.name_index argsW.id_index).available_names.Perm
        (initState cfgC 0).available_names ∧
     (releaseBot (spawnBotFor tsA cfgC (initState cfgC 0) 5).1 argsW.name
        argsW.name_index argsW.id_index).available_ids.Perm
        (initState cfgC 0).available_ids ∧
     (releaseBot (spawnBotFor tsA cfgC (initState cfgC 0) 5).1 argsW.name
        argsW.name_index argsW.id_index).connected_bots =
        (initState cfgC 0).connected_bots) :=
  ⟨c6_release_returns_resources.1 sE "beta" 0 1,
   c6_release_returns_resources.2 tsA cfgC (initState cfgC 0) 5 argsW s1W rfl
     (fun p hp => absurd hp (List.not_mem_nil p))⟩

/-- C7: the shutdown trace of `quit(reason)` ends with the master
transport disconnect, every registered worker's termination instruction
occurs strictly before it, and nothing before it is a master disconnect:
all workers are instructed to quit before the master disconnects,
independently of how long each worker takes to shut down. -/
theorem c7_quit_instructs_workers_before_disconnect (s : MusicBots)
    (reason : String) :
    (quitTrace s reason).getLast? = some (.masterDisconnect reason) ∧
    (∀ p ∈ s.connected_bots,
      QuitEvent.workerQuit p.1 reason ∈ (quitTrace s reason).dropLast) ∧
    (∀ e ∈ (quitTrace s reason).dropLast,
      e ≠ QuitEvent.masterDisconnect reason) := by
  unfold quitTrace
  refine ⟨List.getLast?_concat _, ?_, ?_⟩
  · intro p hp
    rw [List.dropLast_concat]
    exact List.mem_map.mpr ⟨p, hp, rfl⟩
  · intro e he
    rw [List.dropLast_concat] at he
    obtain ⟨p, hp, rfl⟩ := List.mem_map.mp he
    simp

/-- C7 (witness): with the three workers of `s7` active, the shutdown
trace for reason "shutdown" ends in the master disconnect and worker "a"
receives its quit instruction before it. -/
theorem c7_quit_instructs_workers_before_disconnect_witness :
    (quitTrace s7 "shutdown").getLast? =
      some (QuitEvent.masterDisconnect "shutdown") ∧
    QuitEvent.workerQuit "a" "shutdown" ∈ (quitTrace s7 "shutdown").dropLast :=
  ⟨(c7_quit_instructs_workers_before_disconnect s7 "shutdown").1,
   (c7_quit_instructs_workers_before_disconnect s7 "shutdown").2.1
     ("a", { botB with name := "a", channel := 3 }) (List.mem_cons_self _ _)⟩

/-- C8: `MasterArgs::merge` gives precedence to the explicit process
argument for each overlapping field — server address, home channel,
verbosity, local flag — and keeps the configured default when no explicit
argument is present (`none`, verbosity 0, flag unset). -/
theorem c8_merge_gives_args_precedence (self : MasterArgs) (args : Args) :
    ((∀ a, args.address = some a → (self.merge args).address = a) ∧
     (args.address = none → (self.merge args).address = self.address)) ∧
    ((∀ c, args.master_channel = some c → (self.merge args).channel = some c) ∧
     (args.master_channel = none → (self.merge args).channel = self.channel)) ∧
    ((args.verbose ≠ 0 → (self.merge args).verbose = args.verbose) ∧
     (args.verbose = 0 → (self.merge args).verbose = self.verbose)) ∧
    ((args.local_flag = true → (self.merge args).local_flag = true) ∧
     (args.local_flag = false → (self.merge args).local_flag = self.local_flag)) := by
  refine ⟨⟨?_, ?_⟩, ⟨?_, ?_⟩, ⟨?_, ?_⟩, ⟨?_, ?_⟩⟩
  · intro a ha
    simp [MasterArgs.merge, ha]
  · intro ha
    simp [MasterArgs.merge, ha]
  · intro c hc
    simp [MasterArgs.merge, hc, Option.or]
  · intro hc
    simp [MasterArgs.merge, hc, Option.or]
  · intro hv
    simp [MasterArgs.merge, Nat.pos_of_ne_zero hv]
  · intro hv
    simp [MasterArgs.merge, hv]
  · intro hl
    simp [MasterArgs.merge, hl]
  · intro hl
    simp [MasterArgs.merge, hl]

/-- C8 (witness): merging `selfM` with the fully explicit `argsM` takes
every overlapping value from the process arguments. -/
theorem c8_merge_gives_args_precedence_witness :
    (selfM.merge argsM).address = "arg.example.org" ∧
    (selfM.merge argsM).channel = some "ArgChannel" ∧
    (selfM.merge argsM).verbose = 3 ∧
    (selfM.merge argsM).local_flag = true :=
  ⟨(c8_merge_gives_args_precedence selfM argsM).1.1 "arg.example.org" rfl,
   (c8_merge_gives_args_precedence selfM argsM).2.1.1 "ArgChannel" rfl,
   (c8_merge_gives_args_precedence selfM argsM).2.2.1.1 (by decide),
   (c8_merge_gives_args_precedence selfM argsM).2.2.2.1 rfl⟩

/-- C9 (counterexample): the claim states the pool lock is held
continuously from the channel-uniqueness check through the registration of
the spawned handle. In the code the write-lock guard taken in
`build_bot_args_for` drops when that function returns, `MusicBot::new` is
awaited without the lock, and `spawn_bot_for` re-acquires the lock for the
registration: at the await step between allocation and registration the
lock is not held. -/
theorem c9_lock_not_continuous : ¬ ContinuousLockClaim := by
  intro h
  exact absurd (h 6 (by decide) (by decide)) (by decide)

/-- C9 (amended): the lock is held continuously from the
channel-uniqueness check through both allocations (one critical section),
and the registration runs under a second, separate acquisition of the same
lock, with an unlocked await between the two sections. -/
theorem c9_lock_spans_check_and_alloc :
    (∀ k, k < 5 → 1 ≤ k → lockHeld spawnLockTrace k = true) ∧
    lockHeld spawnLockTrace 8 = true ∧
    spawnLockTrace.get? 1 = some .channelCheck ∧
    spawnLockTrace.get? 4 = some .allocId ∧
    spawnLockTrace.get? 6 = some .awaitStep ∧
    lockHeld spawnLockTrace 6 = false ∧
    spawnLockTrace.get? 8 = some .registerBot := by
  decide

/-- C9 (witness): the lock is held at the path-resolution step between
the uniqueness check and the allocations. -/
theorem c9_lock_spans_check_and_alloc_witness :
    lockHeld spawnLockTrace 2 = true :=
  c9_lock_spans_check_and_alloc.1 2 (by decide) (by decide)

/-- C10: `bot_data(name)` returns `none` exactly when no worker is
registered under that name, and any returned snapshot carries the queried
name. -/
theorem c10_bot_data_none_iff_unregistered (s : MusicBots) (n : String) :
    (botData s n = none ↔ ∀ p ∈ s.connected_bots, p.1 ≠ n) ∧
    (∀ d, botData s n = some d → d.name = n) := by
  constructor
  · unfold botData mapGet
    rw [Option.map_eq_none', Option.map_eq_none', List.find?_eq_none]
    constructor
    · intro h p hp
      simpa using h p hp
    · intro h p hp
      simpa using h p hp
  · intro d hd
    unfold botData at hd
    obtain ⟨bot, _, rfl⟩ := Option.map_eq_some'.mp hd
    rfl

/-- C10 (witness): querying an unregistered name yields `none`; the
snapshot for registered worker "beta" carries the queried name. -/
theorem c10_bot_data_none_iff_unregistered_witness :
    botData sB "gamma" = none ∧ dB.name = "beta" :=
  ⟨(c10_bot_data_none_iff_unregistered sB "gamma").1.mpr (by decide),
   (c10_bot_data_none_iff_unregistered sB "beta").2 dB rfl⟩

end Pokebot
